import Mathlib

/-
  Shallow embedding of the NexusVoid security SDK client
  (src/errors.ts and src/client.ts) in Lean 4.

  The client wraps HTTP calls behind a typed interface, classifies raw
  transport failures into a small taxonomy of typed errors, and retries a
  bounded set of failure classes with a delay between attempts.  The
  embedding models the transport as an oracle mapping the attempt index to
  either a successful response value or a raw failure; the retry wrapper
  and the public operations are pure functions of that oracle which also
  record the observable trace (number of transport invocations, the delay
  values passed to the timer, the per-request timeout used).
-/

namespace NexusVoid

/-- Which error class of errors.ts an error value was constructed by.
`base` is the NexusVoidError base class itself; the other five are its
subclasses.  In JavaScript, `instanceof` on one of the five subclasses
holds exactly for values built by that subclass (no further subclassing
exists in the SDK), and `instanceof NexusVoidError` holds for all six. -/
inductive ErrClass where
  | base
  | auth
  | rateLimit
  | validation
  | service
  | timeout
deriving DecidableEq, Repr

/-- The JSON body of an HTTP error response, as far as handleError reads
it: an optional `error` field and an optional `message` field.  A field
may be present but hold the empty string, which JavaScript treats as
falsy in the fallback chain. -/
structure ResponseData where
  errField : Option String
  msgField : Option String
deriving DecidableEq, Repr

/-- An HTTP response attached to an axios failure: a status code and an
optional parsed body. -/
structure HttpResponse where
  status : Nat
  data : Option ResponseData
deriving DecidableEq, Repr

/-- The diagnostic payload attached to a constructed error: nothing, the
parsed body of an HTTP error response, or a whole raw response object. -/
inductive Attached where
  | none
  | ofData (d : ResponseData)
  | ofResp (r : HttpResponse)
deriving DecidableEq, Repr

/-- Attach the optional parsed body `data` of an HTTP error response
(undefined body attaches nothing). -/
def attachData : Option ResponseData → Attached
  | Option.none => Attached.none
  | Option.some d => Attached.ofData d

/-- Attach the optional raw response object of a transport failure
(undefined attaches nothing). -/
def attachResp : Option HttpResponse → Attached
  | Option.none => Attached.none
  | Option.some r => Attached.ofResp r

/-- A NexusVoidError value (errors.ts): the constructing class, the
human message, the machine code, the HTTP-status-like numeric field and
the attached raw payload.  `code` and `status` are optional because the
base-class constructor may leave them undefined. -/
structure NexusVoidError where
  cls : ErrClass
  message : String
  code : Option String
  status : Option Nat
  response : Attached
deriving DecidableEq, Repr

/-- The AuthenticationError subclass constructor: code AUTH_ERROR,
status 401. -/
def AuthenticationError (message : String := "Authentication failed")
    (response : Attached := Attached.none) : NexusVoidError :=
  { cls := ErrClass.auth, message := message, code := Option.some "AUTH_ERROR"
    status := Option.some 401, response := response }

/-- The RateLimitError subclass constructor: code RATE_LIMIT_ERROR,
status 429. -/
def RateLimitError (message : String := "Rate limit exceeded")
    (response : Attached := Attached.none) : NexusVoidError :=
  { cls := ErrClass.rateLimit, message := message, code := Option.some "RATE_LIMIT_ERROR"
    status := Option.some 429, response := response }

/-- The ValidationError subclass constructor: code VALIDATION_ERROR,
status 400. -/
def ValidationError (message : String := "Validation failed")
    (response : Attached := Attached.none) : NexusVoidError :=
  { cls := ErrClass.validation, message := message, code := Option.some "VALIDATION_ERROR"
    status := Option.some 400, response := response }

/-- The ServiceError subclass constructor: code SERVICE_ERROR,
status 500. -/
def ServiceError (message : String := "Service error")
    (response : Attached := Attached.none) : NexusVoidError :=
  { cls := ErrClass.service, message := message, code := Option.some "SERVICE_ERROR"
    status := Option.some 500, response := response }

/-- The TimeoutError subclass constructor: code TIMEOUT_ERROR,
status 408. -/
def TimeoutError (message : String := "Request timeout")
    (response : Attached := Attached.none) : NexusVoidError :=
  { cls := ErrClass.timeout, message := message, code := Option.some "TIMEOUT_ERROR"
    status := Option.some 408, response := response }

/-- A raw transport failure as seen by handleError: an optional HTTP
response (present for remote HTTP errors, absent for transport-level
failures), an optional transport error code string (such as
ECONNABORTED), and an optional transport message. -/
structure RawError where
  response : Option HttpResponse
  code : Option String
  message : Option String
deriving DecidableEq, Repr

/-- JavaScript `a || b` on an optional string: `b` when `a` is absent or
the empty string (both falsy), else the string held by `a`. -/
def jsOrStr (a : Option String) (b : String) : String :=
  match a with
  | Option.none => b
  | Option.some s => if s = "" then b else s

/-- handleError (client.ts): classify a raw transport failure into a
NexusVoidError.  For HTTP failures the status code selects the class and
the message falls back through body error, body message, transport
message, then a default; transport-level timeout and connectivity
failures carry fixed messages; anything else becomes a generic
UNKNOWN_ERROR. -/
def handleError (e : RawError) : NexusVoidError :=
  match e.response with
  | Option.some resp =>
    let message := jsOrStr (resp.data.bind ResponseData.errField)
      (jsOrStr (resp.data.bind ResponseData.msgField)
        (jsOrStr e.message "Unknown error"))
    if resp.status = 401 then AuthenticationError message (attachData resp.data)
    else if resp.status = 429 then RateLimitError message (attachData resp.data)
    else if resp.status = 400 then ValidationError message (attachData resp.data)
    else if resp.status = 408 then TimeoutError message (attachData resp.data)
    else if resp.status = 500 ∨ resp.status = 502 ∨ resp.status = 503 ∨ resp.status = 504 then
      ServiceError message (attachData resp.data)
    else
      { cls := ErrClass.base, message := message, code := Option.some "HTTP_ERROR"
        status := Option.some resp.status, response := attachData resp.data }
  | Option.none =>
    if e.code = Option.some "ECONNABORTED" then
      TimeoutError "Request timeout" (attachResp e.response)
    else if e.code = Option.some "ENOTFOUND" ∨ e.code = Option.some "ECONNREFUSED" then
      ServiceError "Unable to connect to NexusVoid API" (attachResp e.response)
    else
      { cls := ErrClass.base, message := jsOrStr e.message "Unknown error"
        code := Option.some "UNKNOWN_ERROR", status := Option.none
        response := attachResp e.response }

/-- A value thrown inside the client: either a typed NexusVoidError
(what the response interceptor produces via handleError) or some foreign
thrown value, of which only the attached raw response matters to the
wrapping code. -/
inductive Thrown where
  | typed (e : NexusVoidError)
  | untyped (response : Option HttpResponse)
deriving DecidableEq, Repr

/-- shouldRetry (client.ts): retry on RateLimitError, TimeoutError, or a
ServiceError whose status field is truthy and at least 500; nothing
else. -/
def shouldRetry (e : Thrown) : Bool :=
  match e with
  | Thrown.typed err =>
    if err.cls = ErrClass.rateLimit then true
    else if err.cls = ErrClass.timeout then true
    else if err.cls = ErrClass.service then
      match err.status with
      | Option.some s => decide (s ≠ 0) && decide (500 ≤ s)
      | Option.none => false
    else false
  | Thrown.untyped _ => false

/-- The observable trace of one retryRequest run: the final outcome, the
number of times the request action was invoked, and the values passed to
the delay timer before each re-attempt, in order. -/
structure RetryTrace (T : Type) where
  result : Sum Thrown T
  attempts : Nat
  delays : List Int
deriving DecidableEq, Repr

/-- retryRequest (client.ts): attempt the request action; on failure,
if budget remains and shouldRetry accepts the error, wait
1000 * (configRetries - retries + 1) milliseconds and recurse with the
budget decremented; otherwise rethrow.  `requestFn` is the transport
oracle indexed by attempt number and `configRetries` is the value of
this.config.retries read by the backoff formula. -/
def retryRequest {T : Type} (configRetries : Nat) (requestFn : Nat → Sum Thrown T)
    (idx : Nat) : Nat → RetryTrace T
  | 0 =>
    match requestFn idx with
    | Sum.inr v => { result := Sum.inr v, attempts := 1, delays := [] }
    | Sum.inl e => { result := Sum.inl e, attempts := 1, delays := [] }
  | r + 1 =>
    match requestFn idx with
    | Sum.inr v => { result := Sum.inr v, attempts := 1, delays := [] }
    | Sum.inl e =>
      if shouldRetry e then
        let d : Int := 1000 * ((configRetries : Int) - ((r : Int) + 1) + 1)
        let rest := retryRequest configRetries requestFn (idx + 1) r
        { result := rest.result, attempts := rest.attempts + 1, delays := d :: rest.delays }
      else { result := Sum.inl e, attempts := 1, delays := [] }

/-- The client configuration record after constructor defaulting. -/
structure NexusVoidConfig where
  apiKey : String
  baseUrl : String
  timeout : Nat
  retries : Nat
deriving DecidableEq, Repr

/-- The constructor merge: caller-supplied fields override the defaults
baseUrl https://api.nexusvoid.com, timeout 30000, retries 3. -/
def mkClientConfig (apiKey : String) (baseUrl : Option String := Option.none)
    (timeout : Option Nat := Option.none) (retries : Option Nat := Option.none) :
    NexusVoidConfig :=
  { apiKey := apiKey
    baseUrl := baseUrl.getD "https://api.nexusvoid.com"
    timeout := timeout.getD 30000
    retries := retries.getD 3 }

/-- Per-call AnalysisOptions: optional timeout and retries overrides. -/
structure AnalysisOptions where
  timeout : Option Nat := Option.none
  retries : Option Nat := Option.none
deriving DecidableEq, Repr

/-- The prompt argument as a JavaScript value: a string, or a value of
any other runtime type. -/
inductive PromptArg where
  | str (s : String)
  | nonString
deriving DecidableEq, Repr

/-- The observable trace of one analyzePrompt call: the outcome (a typed
error or the response value), the number of transport invocations, the
timeout placed in the per-request config (absent when validation
short-circuited before any request), and the delay values. -/
structure AnalyzeOutcome (T : Type) where
  result : Sum NexusVoidError T
  attempts : Nat
  requestTimeout : Option Nat
  delays : List Int
deriving DecidableEq, Repr

/-- analyzePrompt (client.ts): reject an empty or non-string prompt and
a prompt longer than 10000 characters with a ValidationError before any
transport call; otherwise build the request config with timeout
`options.timeout || config.timeout`, run the transport under
retryRequest with budget `options.retries` defaulted to config.retries,
and rethrow a typed error unchanged while wrapping any foreign thrown
value in a ServiceError. -/
def analyzePrompt {T : Type} (cfg : NexusVoidConfig) (requestFn : Nat → Sum Thrown T)
    (prompt : PromptArg) (options : AnalysisOptions := {}) : AnalyzeOutcome T :=
  match prompt with
  | PromptArg.nonString =>
    { result := Sum.inl (ValidationError "Prompt must be a non-empty string")
      attempts := 0, requestTimeout := Option.none, delays := [] }
  | PromptArg.str s =>
    if s = "" then
      { result := Sum.inl (ValidationError "Prompt must be a non-empty string")
        attempts := 0, requestTimeout := Option.none, delays := [] }
    else if 10000 < s.length then
      { result := Sum.inl (ValidationError "Prompt must be less than 10,000 characters")
        attempts := 0, requestTimeout := Option.none, delays := [] }
    else
      let effTimeout : Nat :=
        match options.timeout with
        | Option.some t => if t = 0 then cfg.timeout else t
        | Option.none => cfg.timeout
      let effRetries : Nat := options.retries.getD cfg.retries
      let tr := retryRequest cfg.retries requestFn 0 effRetries
      { result :=
          match tr.result with
          | Sum.inr v => Sum.inr v
          | Sum.inl (Thrown.typed e) => Sum.inl e
          | Sum.inl (Thrown.untyped resp) =>
            Sum.inl (ServiceError "Failed to analyze prompt" (attachResp resp))
        attempts := tr.attempts
        requestTimeout := Option.some effTimeout
        delays := tr.delays }

/-- The observable trace of one healthCheck call. -/
structure HealthOutcome (T : Type) where
  result : Sum NexusVoidError T
  attempts : Nat
deriving DecidableEq, Repr

/-- healthCheck (client.ts): one transport call, no retry wrapper; a
typed error is rethrown unchanged, a foreign thrown value is wrapped in
a ServiceError. -/
def healthCheck {T : Type} (requestResult : Sum Thrown T) : HealthOutcome T :=
  match requestResult with
  | Sum.inr v => { result := Sum.inr v, attempts := 1 }
  | Sum.inl (Thrown.typed e) => { result := Sum.inl e, attempts := 1 }
  | Sum.inl (Thrown.untyped resp) =>
    { result := Sum.inl (ServiceError "Failed to check service health" (attachResp resp))
      attempts := 1 }

/-- The response interceptor: a raw transport rejection is replaced by
the classified NexusVoidError before the retry wrapper sees it. -/
def classifiedRequest {T : Type} (rawFn : Nat → Sum RawError T) : Nat → Sum Thrown T :=
  fun n =>
    match rawFn n with
    | Sum.inl e => Sum.inl (Thrown.typed (handleError e))
    | Sum.inr v => Sum.inr v

/-- A heap of configuration objects, indexed by object address.  Models
the JavaScript object graph relevant to getConfig: the client holds its
configuration at one address, and the object spread in getConfig copies
the field values into a fresh address. -/
def ConfigHeap : Type := Nat → NexusVoidConfig

/-- Overwrite the configuration object stored at one address. -/
def heapWrite (h : ConfigHeap) (a : Nat) (c : NexusVoidConfig) : ConfigHeap :=
  fun b => if b = a then c else h b

/-- getConfig (client.ts): `return { ...this.config }` — allocate at a
fresh address a record holding the same field values as the client
configuration at `clientAddr`, and return that fresh address. -/
def getConfig (h : ConfigHeap) (clientAddr : Nat) (fresh : Nat) : ConfigHeap × Nat :=
  (heapWrite h fresh (h clientAddr), fresh)

/-- The spec-side retryability predicate: the classified error is a
rate-limit failure, a timeout failure, or a service failure whose status
field is at least 500. -/
def retryableSpec (e : Thrown) : Prop :=
  ∃ err, e = Thrown.typed err ∧
    (err.cls = ErrClass.rateLimit ∨ err.cls = ErrClass.timeout ∨
      (err.cls = ErrClass.service ∧ ∃ s, err.status = Option.some s ∧ 500 ≤ s))

/-- Modelled from the spec: the classification table of section 4.1 with
the message rule amended to match the code — HTTP failures take the
first truthy of body error field, body message field and transport
message, falling back to a default; the transport-level timeout and
connectivity failures carry fixed messages.  Written as an independent
table (5xx row first) to compare against handleError. -/
def classifySpecAmended (e : RawError) : NexusVoidError :=
  match e.response with
  | Option.some resp =>
    let m := jsOrStr (resp.data.bind ResponseData.errField)
      (jsOrStr (resp.data.bind ResponseData.msgField) (jsOrStr e.message "Unknown error"))
    if resp.status ∈ ([500, 502, 503, 504] : List Nat) then ServiceError m (attachData resp.data)
    else if resp.status = 408 then TimeoutError m (attachData resp.data)
    else if resp.status = 400 then ValidationError m (attachData resp.data)
    else if resp.status = 429 then RateLimitError m (attachData resp.data)
    else if resp.status = 401 then AuthenticationError m (attachData resp.data)
    else
      { cls := ErrClass.base, message := m, code := Option.some "HTTP_ERROR"
        status := Option.some resp.status, response := attachData resp.data }
  | Option.none =>
    if e.code = Option.some "ECONNABORTED" then
      TimeoutError "Request timeout" Attached.none
    else if e.code = Option.some "ENOTFOUND" ∨ e.code = Option.some "ECONNREFUSED" then
      ServiceError "Unable to connect to NexusVoid API" Attached.none
    else
      { cls := ErrClass.base, message := jsOrStr e.message "Unknown error"
        code := Option.some "UNKNOWN_ERROR", status := Option.none
        response := Attached.none }

/-- A remote 429 response with no body, as a raw transport failure. -/
def raw429 : RawError :=
  { response := Option.some { status := 429, data := Option.none }
    code := Option.none, message := Option.none }

/-- A transport oracle that fails every attempt with the raw 429
failure. -/
def rawOracle429 : Nat → Sum RawError Nat := fun _ => Sum.inl raw429

/-- A remote 401 response carrying a body with an error field. -/
def raw401 : RawError :=
  { response := Option.some
      { status := 401
        data := Option.some { errField := Option.some "Invalid API key", msgField := Option.none } }
    code := Option.none, message := Option.none }

/-- A transport oracle that fails every attempt with the raw 401
failure. -/
def rawOracle401 : Nat → Sum RawError Nat := fun _ => Sum.inl raw401

/-- A remote 502 response with no body. -/
def raw502 : RawError :=
  { response := Option.some { status := 502, data := Option.none }
    code := Option.none, message := Option.none }

/-- A transport-level timeout failure carrying a transport message and
no HTTP response. -/
def rawAborted : RawError :=
  { response := Option.none, code := Option.some "ECONNABORTED"
    message := Option.some "socket hang up" }

/-- A client configuration built with the constructor defaults. -/
def cfgD3 : NexusVoidConfig := mkClientConfig "test-api-key"

/-- An oracle that fails every attempt with a foreign (untyped) thrown
value carrying a raw 502 response. -/
def oracleUntyped : Nat → Sum Thrown Nat :=
  fun _ => Sum.inl (Thrown.untyped (Option.some { status := 502, data := Option.none }))

/-- A heap whose every address holds the default configuration. -/
def heapD3 : ConfigHeap := fun _ => cfgD3

/-- A mutation a caller might apply to the object returned by
getConfig. -/
def mutateRetries (c : NexusVoidConfig) : NexusVoidConfig := { c with retries := 99 }

/-- The retry wrapper invokes the request action at least once. -/
theorem retry_attempts_pos {T : Type} (D : Nat) (f : Nat → Sum Thrown T) (idx r : Nat) :
    1 ≤ (retryRequest D f idx r).attempts := by
  cases r with
  | zero => cases hf : f idx <;> simp [retryRequest, hf]
  | succ r =>
    cases hf : f idx with
    | inr v => simp [retryRequest, hf]
    | inl e =>
      by_cases hs : shouldRetry e <;> simp [retryRequest, hf, hs]

/-- A failure rejected by shouldRetry terminates the retry wrapper at
once: one attempt, no delay, the error itself as the outcome. -/
theorem retry_no_retry {T : Type} (D : Nat) (f : Nat → Sum Thrown T) (idx r : Nat) (e : Thrown)
    (hf : f idx = Sum.inl e) (hs : shouldRetry e = false) :
    retryRequest D f idx r = { result := Sum.inl e, attempts := 1, delays := [] } := by
  cases r <;> simp [retryRequest, hf, hs]

/-- The boolean shouldRetry decides exactly the spec-side retryability
predicate. -/
theorem shouldRetry_iff (e : Thrown) : shouldRetry e = true ↔ retryableSpec e := by
  cases e with
  | untyped resp => simp [shouldRetry, retryableSpec]
  | typed err =>
    cases hc : err.cls <;> cases hst : err.status <;>
      first
      | (simp [shouldRetry, hc, hst, retryableSpec]; omega)
      | simp [shouldRetry, hc, hst, retryableSpec]

/-- When every attempt fails with a typed rate-limit error, the retry
wrapper makes exactly budget + 1 attempts and the outcome is a typed
rate-limit error. -/
theorem retry_all_rateLimited {T : Type} (D : Nat) (f : Nat → Sum Thrown T)
    (h : ∀ n, ∃ err, f n = Sum.inl (Thrown.typed err) ∧ err.cls = ErrClass.rateLimit) :
    ∀ (r idx : Nat), (retryRequest D f idx r).attempts = r + 1 ∧
      ∃ err, (retryRequest D f idx r).result = Sum.inl (Thrown.typed err) ∧
        err.cls = ErrClass.rateLimit := by
  intro r
  induction r with
  | zero =>
    intro idx
    obtain ⟨err, hf, hcls⟩ := h idx
    refine ⟨by simp [retryRequest, hf], err, by simp [retryRequest, hf], hcls⟩
  | succ r ih =>
    intro idx
    obtain ⟨err, hf, hcls⟩ := h idx
    have hs : shouldRetry (Thrown.typed err) = true := by simp [shouldRetry, hcls]
    obtain ⟨iha, err2, ihr, ihcls⟩ := ih (idx + 1)
    refine ⟨by simp [retryRequest, hf, hs, iha], err2, by simp [retryRequest, hf, hs, ihr], ihcls⟩

/-- The value of the i-th delay inserted by the retry wrapper, whenever
it occurs: 1000 milliseconds times (configRetries − (budget − i) + 1),
computed in the integers. -/
theorem retry_delay_get {T : Type} (D : Nat) (f : Nat → Sum Thrown T) :
    ∀ (r idx i : Nat) (d : Int),
      (retryRequest D f idx r).delays.get? i = Option.some d →
      d = 1000 * ((D : Int) - ((r : Int) - (i : Int)) + 1) := by
  intro r
  induction r with
  | zero =>
    intro idx i d hd
    exfalso
    cases hf : f idx <;> simp [retryRequest, hf] at hd
  | succ r ih =>
    intro idx i d hd
    cases hf : f idx with
    | inr v => simp [retryRequest, hf] at hd
    | inl e =>
      by_cases hs : shouldRetry e
      · simp only [retryRequest, hf, hs, if_true] at hd
        cases i with
        | zero =>
          simp only [List.get?] at hd
          obtain rfl : (1000 : Int) * ((D : Int) - ((r : Int) + 1) + 1) = d :=
            Option.some.inj hd
          push_cast
          ring
        | succ j =>
          simp only [List.get?] at hd
          have := ih (idx + 1) j d hd
          rw [this]
          push_cast
          ring
      · simp [retryRequest, hf, hs] at hd

/-- On a valid prompt, analyzePrompt runs the transport under the retry
wrapper with the effective budget and timeout, and translates the
outcome. -/
theorem analyzePrompt_valid {T : Type} (cfg : NexusVoidConfig) (f : Nat → Sum Thrown T)
    (s : String) (options : AnalysisOptions) (hs : s ≠ "") (hlen : s.length ≤ 10000) :
    analyzePrompt cfg f (PromptArg.str s) options =
      { result :=
          match (retryRequest cfg.retries f 0 (options.retries.getD cfg.retries)).result with
          | Sum.inr v => Sum.inr v
          | Sum.inl (Thrown.typed e) => Sum.inl e
          | Sum.inl (Thrown.untyped resp) =>
            Sum.inl (ServiceError "Failed to analyze prompt" (attachResp resp))
        attempts := (retryRequest cfg.retries f 0 (options.retries.getD cfg.retries)).attempts
        requestTimeout := Option.some
          (match options.timeout with
           | Option.some t => if t = 0 then cfg.timeout else t
           | Option.none => cfg.timeout)
        delays := (retryRequest cfg.retries f 0 (options.retries.getD cfg.retries)).delays } := by
  simp only [analyzePrompt]
  rw [if_neg hs, if_neg (Nat.not_lt.mpr hlen)]

/-- A raw failure holding a 429 response classifies to a rate-limit
error. -/
theorem handleError_429 (e : RawError) (resp : HttpResponse)
    (hresp : e.response = Option.some resp) (h429 : resp.status = 429) :
    (handleError e).cls = ErrClass.rateLimit := by
  simp [handleError, hresp, h429, RateLimitError]

/-- A raw failure holding a 401 response classifies to an
authentication error. -/
theorem handleError_401 (e : RawError) (resp : HttpResponse)
    (hresp : e.response = Option.some resp) (h401 : resp.status = 401) :
    (handleError e).cls = ErrClass.auth := by
  simp [handleError, hresp, h401, AuthenticationError]

/-- An authentication error is never retried. -/
theorem shouldRetry_auth (err : NexusVoidError) (hcls : err.cls = ErrClass.auth) :
    shouldRetry (Thrown.typed err) = false := by
  simp [shouldRetry, hcls]

/-- Claim C1, counterexample.  With the client default retries 3 and a
per-call override retries 5, the claimed formula predicts a first wait
of 1000 * (5 - 5 + 1) = 1000 ms, but the code computes the wait from
this.config.retries, giving 1000 * (3 - 5 + 1) = -1000 ms before the
first re-attempt. -/
theorem C1_backoff_counterexample :
    (analyzePrompt cfgD3 (classifiedRequest rawOracle429) (PromptArg.str "p")
        { retries := Option.some 5 }).delays.get? 0 = Option.some (-1000) ∧
      (Option.some (-1000 : Int) ≠
        Option.some (1000 * ((5 : Int) - ((5 : Int) - (0 : Int)) + 1))) := by
  constructor
  · decide
  · decide

/-- Claim C1 (amended): the wait inserted before each re-attempt is
1000 ms times (clientDefaultRetries − remaining + 1), where
clientDefaultRetries is the retries value of the client configuration —
not the effective per-call budget.  With remaining = budget − i before
the (i+1)-th re-attempt, the i-th delay equals
1000 * (cfg.retries − (budget − i) + 1); when no per-call retries
override is given the two formulas coincide and the backoff is linear,
1000 ms, 2000 ms, and so on. -/
theorem C1_backoff_formula {T : Type} (cfg : NexusVoidConfig) (f : Nat → Sum Thrown T)
    (s : String) (options : AnalysisOptions) (hs : s ≠ "") (hlen : s.length ≤ 10000)
    (i : Nat) (d : Int)
    (hd : (analyzePrompt cfg f (PromptArg.str s) options).delays.get? i = Option.some d) :
    d = 1000 * ((cfg.retries : Int) - (((options.retries.getD cfg.retries : Nat) : Int) - (i : Int)) + 1) := by
  rw [analyzePrompt_valid cfg f s options hs hlen] at hd
  exact retry_delay_get cfg.retries f (options.retries.getD cfg.retries) 0 i d hd

/-- Claim C1, witness: the amended formula evaluated at the concrete
counterexample configuration gives the observed -1000 ms first delay. -/
theorem C1_backoff_formula_witness :
    (-1000 : Int) = 1000 * ((3 : Int) - ((5 : Int) - (0 : Int)) + 1) := by
  have h := C1_backoff_formula cfgD3 (classifiedRequest rawOracle429) "p"
    { retries := Option.some 5 } (by decide) (by decide) 0 (-1000) (by decide)
  exact h.trans (by decide)

/-- Claim C2: after a failed attempt, a re-attempt happens if and only
if the remaining budget is positive and the classified error is
retryable (rate-limit, timeout, or service with status at least 500);
otherwise the error propagates unchanged after a single attempt. -/
theorem C2_retry_condition {T : Type} (D r : Nat) (f : Nat → Sum Thrown T) (e : Thrown)
    (hf : f 0 = Sum.inl e) :
    (2 ≤ (retryRequest D f 0 r).attempts ↔ (0 < r ∧ retryableSpec e)) ∧
    (¬ (0 < r ∧ retryableSpec e) →
      (retryRequest D f 0 r).result = Sum.inl e ∧ (retryRequest D f 0 r).attempts = 1) := by
  cases r with
  | zero =>
    refine ⟨?_, fun _ => ⟨by simp [retryRequest, hf], by simp [retryRequest, hf]⟩⟩
    simp [retryRequest, hf]
  | succ r =>
    by_cases hs : shouldRetry e
    · have hretry : retryableSpec e := (shouldRetry_iff e).mp hs
      have h1 := retry_attempts_pos D f (0 + 1) r
      have hatt : (retryRequest D f 0 (r + 1)).attempts =
          (retryRequest D f (0 + 1) r).attempts + 1 := by
        simp [retryRequest, hf, hs]
      constructor
      · rw [hatt]
        constructor
        · intro _; exact ⟨Nat.succ_pos r, hretry⟩
        · intro _; omega
      · intro hcontra
        exact absurd ⟨Nat.succ_pos r, hretry⟩ hcontra
    · have hnot : ¬ retryableSpec e := fun hr => by
        rw [(shouldRetry_iff e).mpr hr] at hs
        exact hs rfl
      have hbool : shouldRetry e = false := by
        cases hb : shouldRetry e
        · rfl
        · exact absurd hb hs
      have heq := retry_no_retry D f 0 (r + 1) e hf hbool
      refine ⟨?_, fun _ => ⟨by rw [heq], by rw [heq]⟩⟩
      rw [heq]
      simp only [show ¬ (2 ≤ 1) by omega, false_iff]
      intro ⟨_, hr⟩
      exact hnot hr

/-- Claim C2, witness: a 429-classified failure with budget 2 is
re-attempted. -/
theorem C2_retry_condition_witness :
    2 ≤ (retryRequest 3 (classifiedRequest rawOracle429) 0 2).attempts := by
  have h := C2_retry_condition 3 2 (classifiedRequest rawOracle429)
    (Thrown.typed (handleError raw429)) (by decide)
  refine h.1.mpr ⟨by decide, handleError raw429, rfl, Or.inl (by decide)⟩

/-- Claim C3, counterexample.  For a transport-level timeout carrying
the transport message "socket hang up" and no response body, the claim
says the classified message falls back to the transport message; the
code instead attaches the fixed message "Request timeout". -/
theorem C3_message_counterexample :
    (handleError rawAborted).message = "Request timeout" ∧
      (handleError rawAborted).message ≠ "socket hang up" := by
  constructor
  · decide
  · decide

/-- Claim C3 (amended): classification is the pure function given by the
spec table — 401 to authentication, 429 to rate-limit, 400 to
validation, 408 to timeout, status in 500, 502, 503, 504 to service,
any other HTTP status to generic HTTP_ERROR carrying that status,
transport timeout to a timeout failure, transport unreachable/refused
to a service failure, anything else to generic UNKNOWN_ERROR — where
HTTP failures take the first truthy of the body error field, the body
message field and the transport message, falling back to
"Unknown error", while the transport-level timeout and connectivity
failures carry the fixed messages "Request timeout" and
"Unable to connect to NexusVoid API". -/
theorem C3_classification (e : RawError) : handleError e = classifySpecAmended e := by
  obtain ⟨resp, c, m⟩ := e
  cases resp with
  | none => rfl
  | some resp =>
    obtain ⟨st, d⟩ := resp
    simp only [handleError, classifySpecAmended, List.mem_cons, List.not_mem_nil, or_false]
    by_cases h1 : st = 401 <;> by_cases h2 : st = 429 <;> by_cases h3 : st = 400 <;>
      by_cases h4 : st = 408 <;> by_cases h5 : st = 500 <;> by_cases h6 : st = 502 <;>
        by_cases h7 : st = 503 <;> by_cases h8 : st = 504 <;>
          simp_all

/-- Claim C4: when every attempt fails with a remote 429 response, the
call to analyze fails with a rate-limit error after exactly effective
budget + 1 transport invocations. -/
theorem C4_rate_limit_exhaustion {T : Type} (cfg : NexusVoidConfig)
    (rawFn : Nat → Sum RawError T) (s : String) (options : AnalysisOptions)
    (hs : s ≠ "") (hlen : s.length ≤ 10000)
    (h429 : ∀ n, ∃ e resp, rawFn n = Sum.inl e ∧ e.response = Option.some resp ∧
      resp.status = 429) :
    (analyzePrompt cfg (classifiedRequest rawFn) (PromptArg.str s) options).attempts =
      options.retries.getD cfg.retries + 1 ∧
    ∃ err, (analyzePrompt cfg (classifiedRequest rawFn) (PromptArg.str s) options).result =
      Sum.inl err ∧ err.cls = ErrClass.rateLimit := by
  have hth : ∀ n, ∃ err, classifiedRequest rawFn n = Sum.inl (Thrown.typed err) ∧
      err.cls = ErrClass.rateLimit := by
    intro n
    obtain ⟨e, resp, he, hresp, hst⟩ := h429 n
    exact ⟨handleError e, by simp [classifiedRequest, he], handleError_429 e resp hresp hst⟩
  obtain ⟨ha, err, hr, hcls⟩ :=
    retry_all_rateLimited cfg.retries (classifiedRequest rawFn) hth
      (options.retries.getD cfg.retries) 0
  rw [analyzePrompt_valid cfg (classifiedRequest rawFn) s options hs hlen]
  exact ⟨ha, err, by simp [hr], hcls⟩

/-- Claim C4, witness: with the default budget 3 and an always-429
transport, analyze makes exactly 4 attempts. -/
theorem C4_rate_limit_exhaustion_witness :
    (analyzePrompt cfgD3 (classifiedRequest rawOracle429) (PromptArg.str "p") {}).attempts = 4 := by
  have h := C4_rate_limit_exhaustion cfgD3 rawOracle429 "p" {} (by decide) (by decide)
    (fun n => ⟨raw429, { status := 429, data := Option.none }, rfl, rfl, rfl⟩)
  exact h.1

/-- Claim C5: an empty, non-string, or over-10000-character prompt makes
analyze fail with a validation error and zero transport invocations; a
string prompt of length 1 to 10000 passes the precondition check and at
least one transport call is issued. -/
theorem C5_validation_gate {T : Type} (cfg : NexusVoidConfig) (f : Nat → Sum Thrown T)
    (options : AnalysisOptions) :
    ((analyzePrompt cfg f PromptArg.nonString options).attempts = 0 ∧
      ∃ err, (analyzePrompt cfg f PromptArg.nonString options).result = Sum.inl err ∧
        err.cls = ErrClass.validation) ∧
    (∀ s : String, (s = "" ∨ 10000 < s.length) →
      (analyzePrompt cfg f (PromptArg.str s) options).attempts = 0 ∧
      ∃ err, (analyzePrompt cfg f (PromptArg.str s) options).result = Sum.inl err ∧
        err.cls = ErrClass.validation) ∧
    (∀ s : String, s ≠ "" → s.length ≤ 10000 →
      1 ≤ (analyzePrompt cfg f (PromptArg.str s) options).attempts) := by
  refine ⟨⟨rfl, ValidationError "Prompt must be a non-empty string", rfl, rfl⟩, ?_, ?_⟩
  · intro s hbad
    by_cases hempty : s = ""
    · subst hempty
      exact ⟨by simp [analyzePrompt], ValidationError "Prompt must be a non-empty string",
        by simp [analyzePrompt], rfl⟩
    · have hlong : 10000 < s.length := by
        cases hbad with
        | inl h => exact absurd h hempty
        | inr h => exact h
      refine ⟨?_, ValidationError "Prompt must be less than 10,000 characters", ?_, rfl⟩
      · simp [analyzePrompt, hempty, hlong]
      · simp [analyzePrompt, hempty, hlong]
  · intro s hne hlen
    rw [analyzePrompt_valid cfg f s options hne hlen]
    exact retry_attempts_pos cfg.retries f 0 (options.retries.getD cfg.retries)

/-- Claim C5, witness: a one-character prompt issues a transport call. -/
theorem C5_validation_gate_witness :
    1 ≤ (analyzePrompt cfgD3 (classifiedRequest rawOracle429) (PromptArg.str "p") {}).attempts :=
  (C5_validation_gate cfgD3 (classifiedRequest rawOracle429) {}).2.2 "p" (by decide) (by decide)

/-- Claim C6: on a remote 401 response, analyze fails with an
authentication error after exactly one transport invocation, and
healthCheck fails with an authentication error after its single
transport invocation. -/
theorem C6_auth_no_retry {T : Type} (cfg : NexusVoidConfig) (rawFn : Nat → Sum RawError T)
    (s : String) (options : AnalysisOptions) (hs : s ≠ "") (hlen : s.length ≤ 10000)
    (e : RawError) (resp : HttpResponse) (hf : rawFn 0 = Sum.inl e)
    (hresp : e.response = Option.some resp) (h401 : resp.status = 401) :
    ((analyzePrompt cfg (classifiedRequest rawFn) (PromptArg.str s) options).attempts = 1 ∧
      ∃ err, (analyzePrompt cfg (classifiedRequest rawFn) (PromptArg.str s) options).result =
        Sum.inl err ∧ err.cls = ErrClass.auth) ∧
    ((healthCheck (Sum.inl (Thrown.typed (handleError e)) : Sum Thrown T)).attempts = 1 ∧
      ∃ err, (healthCheck (Sum.inl (Thrown.typed (handleError e)) : Sum Thrown T)).result =
        Sum.inl err ∧ err.cls = ErrClass.auth) := by
  have hcls : (handleError e).cls = ErrClass.auth := handleError_401 e resp hresp h401
  have hcf : classifiedRequest rawFn 0 = Sum.inl (Thrown.typed (handleError e)) := by
    simp [classifiedRequest, hf]
  have hnr := retry_no_retry cfg.retries (classifiedRequest rawFn) 0
    (options.retries.getD cfg.retries) (Thrown.typed (handleError e)) hcf
    (shouldRetry_auth (handleError e) hcls)
  rw [analyzePrompt_valid cfg (classifiedRequest rawFn) s options hs hlen]
  rw [hnr]
  exact ⟨⟨rfl, handleError e, rfl, hcls⟩, rfl, handleError e, rfl, hcls⟩

/-- Claim C6, witness: the concrete 401 transport oracle gives exactly
one attempt for analyze and for healthCheck. -/
theorem C6_auth_no_retry_witness :
    (analyzePrompt cfgD3 (classifiedRequest rawOracle401) (PromptArg.str "p") {}).attempts = 1 ∧
    (healthCheck (Sum.inl (Thrown.typed (handleError raw401)) : Sum Thrown Nat)).attempts = 1 := by
  have h := C6_auth_no_retry cfgD3 rawOracle401 "p" {} (by decide) (by decide) raw401
    { status := 401
      data := Option.some { errField := Option.some "Invalid API key", msgField := Option.none } }
    rfl rfl rfl
  exact ⟨h.1.1, h.2.1⟩

/-- Claim C7: a typed error surfaced from the retry policy is rethrown
by analyze unchanged, while a foreign thrown value is wrapped into a
ServiceError carrying the original response context. -/
theorem C7_error_rethrow {T : Type} (cfg : NexusVoidConfig) (f : Nat → Sum Thrown T)
    (s : String) (options : AnalysisOptions) (hs : s ≠ "") (hlen : s.length ≤ 10000) :
    (∀ err, (retryRequest cfg.retries f 0 (options.retries.getD cfg.retries)).result =
        Sum.inl (Thrown.typed err) →
      (analyzePrompt cfg f (PromptArg.str s) options).result = Sum.inl err) ∧
    (∀ resp, (retryRequest cfg.retries f 0 (options.retries.getD cfg.retries)).result =
        Sum.inl (Thrown.untyped resp) →
      (analyzePrompt cfg f (PromptArg.str s) options).result =
        Sum.inl (ServiceError "Failed to analyze prompt" (attachResp resp))) := by
  rw [analyzePrompt_valid cfg f s options hs hlen]
  constructor
  · intro err hr
    simp [hr]
  · intro resp hr
    simp [hr]

/-- Claim C7, witness: a typed 401 error is rethrown as itself, and an
untyped thrown value is wrapped with the fixed message and the original
raw response attached. -/
theorem C7_error_rethrow_witness :
    (analyzePrompt cfgD3 (classifiedRequest rawOracle401) (PromptArg.str "p") {}).result =
      Sum.inl (handleError raw401) ∧
    (analyzePrompt cfgD3 oracleUntyped (PromptArg.str "p") {}).result =
      Sum.inl (ServiceError "Failed to analyze prompt"
        (attachResp (Option.some { status := 502, data := Option.none }))) := by
  constructor
  · exact (C7_error_rethrow cfgD3 (classifiedRequest rawOracle401) "p" {} (by decide)
      (by decide)).1 (handleError raw401) (by decide)
  · exact (C7_error_rethrow cfgD3 oracleUntyped "p" {} (by decide) (by decide)).2
      (Option.some { status := 502, data := Option.none }) (by decide)

/-- Claim C8: getConfig returns a copy at a fresh address; overwriting
the copy with any mutation leaves the client configuration unchanged,
and the behavior of a subsequent analyze call driven by the client
configuration is unchanged. -/
theorem C8_getConfig_snapshot (h : ConfigHeap) (clientAddr fresh : Nat)
    (hne : fresh ≠ clientAddr) (mutate : NexusVoidConfig → NexusVoidConfig) :
    heapWrite (getConfig h clientAddr fresh).1 (getConfig h clientAddr fresh).2
        (mutate ((getConfig h clientAddr fresh).1 (getConfig h clientAddr fresh).2))
        clientAddr = h clientAddr ∧
    ∀ (T : Type) (f : Nat → Sum Thrown T) (prompt : PromptArg) (options : AnalysisOptions),
      analyzePrompt
          (heapWrite (getConfig h clientAddr fresh).1 (getConfig h clientAddr fresh).2
            (mutate ((getConfig h clientAddr fresh).1 (getConfig h clientAddr fresh).2))
            clientAddr)
          f prompt options
        = analyzePrompt (h clientAddr) f prompt options := by
  have hw : heapWrite (getConfig h clientAddr fresh).1 (getConfig h clientAddr fresh).2
      (mutate ((getConfig h clientAddr fresh).1 (getConfig h clientAddr fresh).2))
      clientAddr = h clientAddr := by
    simp [heapWrite, getConfig, Ne.symm hne]
  exact ⟨hw, fun T f prompt options => by rw [hw]⟩

/-- Claim C8, witness: mutating the retries field of the copy returned
by getConfig leaves the client configuration intact. -/
theorem C8_getConfig_snapshot_witness :
    heapWrite (getConfig heapD3 0 1).1 (getConfig heapD3 0 1).2
        (mutateRetries ((getConfig heapD3 0 1).1 (getConfig heapD3 0 1).2)) 0 = heapD3 0 :=
  (C8_getConfig_snapshot heapD3 0 1 (by decide) mutateRetries).1

/-- Claim C9: every service error carries the fixed status 500 and code
SERVICE_ERROR — whether built from an HTTP 500, 502, 503 or 504
response (whose originating status is then not preserved on the error
object, only the raw body being attached) or from a transport-level
connectivity failure. -/
theorem C9_service_error_fixed_fields :
    (∀ (m : String) (att : Attached), (ServiceError m att).status = Option.some 500 ∧
      (ServiceError m att).code = Option.some "SERVICE_ERROR") ∧
    (∀ (e : RawError) (resp : HttpResponse), e.response = Option.some resp →
      (resp.status = 500 ∨ resp.status = 502 ∨ resp.status = 503 ∨ resp.status = 504) →
      (handleError e).status = Option.some 500 ∧
      (handleError e).code = Option.some "SERVICE_ERROR" ∧
      (handleError e).response = attachData resp.data ∧
      (resp.status ≠ 500 → (handleError e).status ≠ Option.some resp.status)) ∧
    (∀ e : RawError, e.response = Option.none →
      (e.code = Option.some "ENOTFOUND" ∨ e.code = Option.some "ECONNREFUSED") →
      (handleError e).status = Option.some 500 ∧
      (handleError e).code = Option.some "SERVICE_ERROR") := by
  refine ⟨fun m att => ⟨rfl, rfl⟩, ?_, ?_⟩
  · intro e resp hresp h5xx
    have hne : ¬ (resp.status = 401) ∧ ¬ (resp.status = 429) ∧ ¬ (resp.status = 400) ∧
        ¬ (resp.status = 408) := by
      rcases h5xx with h | h | h | h <;> rw [h] <;> exact ⟨by decide, by decide, by decide, by decide⟩
    obtain ⟨hn1, hn2, hn3, hn4⟩ := hne
    have hmain : handleError e = ServiceError
        (jsOrStr (resp.data.bind ResponseData.errField)
          (jsOrStr (resp.data.bind ResponseData.msgField) (jsOrStr e.message "Unknown error")))
        (attachData resp.data) := by
      simp [handleError, hresp, hn1, hn2, hn3, hn4, h5xx]
    rw [hmain]
    refine ⟨rfl, rfl, rfl, fun hne500 hcontra => ?_⟩
    exact hne500 (Option.some.inj hcontra).symm
  · intro e hresp hcode
    have hnab : ¬ (e.code = Option.some "ECONNABORTED") := by
      rcases hcode with h | h <;> rw [h] <;> decide
    simp [handleError, hresp, hnab, hcode, ServiceError]

/-- Claim C9, witness: a raw 502 response classifies to an error with
status 500 (not 502) and code SERVICE_ERROR. -/
theorem C9_service_error_fixed_fields_witness :
    (handleError raw502).status = Option.some 500 ∧
    (handleError raw502).code = Option.some "SERVICE_ERROR" ∧
    (handleError raw502).status ≠ Option.some 502 := by
  have h := C9_service_error_fixed_fields.2.1 raw502
    { status := 502, data := Option.none } rfl (Or.inr (Or.inl rfl))
  exact ⟨h.1, h.2.1, h.2.2.2 (by decide)⟩

/-- Claim C10: a falsy per-call timeout override of 0 is ignored — the
request carries the client default timeout — while a per-call retries
override of 0 is honored: the budget is 0 and a failing retryable
request is attempted exactly once. -/
theorem C10_falsy_overrides {T : Type} (cfg : NexusVoidConfig) (f : Nat → Sum Thrown T)
    (s : String) (hs : s ≠ "") (hlen : s.length ≤ 10000) :
    ((analyzePrompt cfg f (PromptArg.str s)
        { timeout := Option.some 0 }).requestTimeout = Option.some cfg.timeout) ∧
    (∀ e : Thrown, f 0 = Sum.inl e → shouldRetry e = true →
      (analyzePrompt cfg f (PromptArg.str s) { retries := Option.some 0 }).attempts = 1) := by
  constructor
  · rw [analyzePrompt_valid cfg f s { timeout := Option.some 0 } hs hlen]
    rfl
  · intro e hf hretryable
    rw [analyzePrompt_valid cfg f s { retries := Option.some 0 } hs hlen]
    simp [retryRequest, hf]

/-- Claim C10, witness: with a 429 transport, a timeout override of 0
yields the default 30000 ms request timeout, and a retries override of
0 yields exactly one attempt. -/
theorem C10_falsy_overrides_witness :
    (analyzePrompt cfgD3 (classifiedRequest rawOracle429) (PromptArg.str "p")
        { timeout := Option.some 0 }).requestTimeout = Option.some 30000 ∧
    (analyzePrompt cfgD3 (classifiedRequest rawOracle429) (PromptArg.str "p")
        { retries := Option.some 0 }).attempts = 1 := by
  have h := C10_falsy_overrides cfgD3 (classifiedRequest rawOracle429) "p"
    (by decide) (by decide)
  exact ⟨h.1, h.2 (Thrown.typed (handleError raw429)) rfl (by decide)⟩

end NexusVoid
